import Mathlib

/-!
Verification of the crime-radio-search server (`src/server.py`).

The file shallowly embeds the query-building and response-shaping logic of
the two tools `search_crime_events` and `get_crime_stats`:

* Python's dynamically-typed parameter values are modelled by `PyVal`
  (timestamps are epoch seconds as `Int`, floats as `ℚ`);
* `parse_val` mirrors the coercion helper line by line, with the
  `try/except (ValueError, TypeError)` modelled by `Option`-valued
  conversions (`pyInt`, `pyFloat` return `none` exactly where the Python
  conversion raises);
* MongoDB query dictionaries are modelled by the record `MongoQuery`
  whose optional fields are the keys the code can ever set;
* the external store is a parameter: an already-executed
  `Except PyExc (List CrimeEvent)` standing for the outcome of
  `collection.find` / `collection.aggregate` (the `except` branch of the
  source catches exactly the exceptions this models);
* `datetime.now(timezone.utc)` is a single `now : Int` parameter, sampled
  once per call exactly as in the source.
-/

set_option autoImplicit false

namespace CrimeRadio

/-- Dynamically-typed Python values as they reach the two tools.
`float` is modelled by `ℚ` (the claims under study do not depend on binary
floating-point rounding). -/
inductive PyVal where
  | none
  | bool (b : Bool)
  | int (n : Int)
  | float (q : ℚ)
  | str (s : String)
  | list (xs : List PyVal)

/-- The target types handed to `parse_val` (`str`, `int`, `float`, `list`
in the source; `other` stands for any further type, hitting the final
`else: return value` branch). -/
inductive PyType where
  | str
  | int
  | float
  | list
  | other
deriving DecidableEq

/-- Python `str.strip()` on a character list: drop leading and trailing
whitespace. -/
def trimChars (l : List Char) : List Char :=
  ((l.dropWhile Char.isWhitespace).reverse.dropWhile Char.isWhitespace).reverse

/-- Python `str.strip()`. -/
def pyStrip (s : String) : String :=
  ⟨trimChars s.data⟩

/-- Python `str.split(sep)` for a one-character separator, on character
lists: `""` splits to `[""]`, and empty chunks are kept. -/
def splitChar (sep : Char) : List Char → List (List Char)
  | [] => [[]]
  | c :: rest =>
    if c = sep then [] :: splitChar sep rest
    else
      match splitChar sep rest with
      | h :: t => (c :: h) :: t
      | [] => [[c]]

/-- Python `str.split(',')`. -/
def pySplitComma (s : String) : List String :=
  (splitChar ',' s.data).map (fun cs => ⟨cs⟩)

/-- Python `str.lower()` (ASCII case folding suffices for the inputs
under study). -/
def pyLower (s : String) : String :=
  ⟨s.data.map Char.toLower⟩

/-- Base-10 digits to a number: `none` unless the (non-empty) characters
are all digits. -/
def digitsToNat (l : List Char) : Option Nat :=
  if l.isEmpty then Option.none
  else if l.all (fun c => c.isDigit) then
    some (l.foldl (fun acc c => acc * 10 + (c.toNat - 48)) 0)
  else Option.none

/-- Decimal rendering of a natural number (fuel-based so that it reduces
everywhere). -/
def natDigitsAux : Nat → Nat → List Char
  | 0, _ => []
  | fuel + 1, n =>
    if n = 0 then []
    else natDigitsAux fuel (n / 10) ++ [Char.ofNat (48 + n % 10)]

/-- Decimal rendering of a natural number. -/
def natToString (n : Nat) : String :=
  if n = 0 then "0" else ⟨natDigitsAux (n + 1) n⟩

/-- Python `str(int)`. -/
def intToString (n : Int) : String :=
  if n < 0 then "-" ++ natToString (-n).toNat else natToString n.toNat

/-- Python `str(value)` for the value shapes above.  The renderings of
floats and nested lists are abstracted: no code path under study
stringifies either. -/
def pyStr : PyVal → String
  | .none => "None"
  | .bool b => if b then "True" else "False"
  | .int n => intToString n
  | .float q => toString q
  | .str s => s
  | .list _ => "[...]"

/-- Python `int(s)` on a string: optional surrounding whitespace, optional
sign, then decimal digits; anything else raises `ValueError` (here:
`none`). -/
def pyStrToInt (s : String) : Option Int :=
  match trimChars s.data with
  | '-' :: rest => (digitsToNat rest).map (fun n => -(n : Int))
  | '+' :: rest => (digitsToNat rest).map (fun n => (n : Int))
  | t => (digitsToNat t).map (fun n => (n : Int))

/-- Decimal literal without sign: `"12"`, `"12.5"`, `".5"`, `"5."`. -/
def parseDecimal (u : List Char) : Option ℚ :=
  match splitChar '.' u with
  | [a] => (digitsToNat a).map (fun n => (n : ℚ))
  | [a, b] =>
    if a.isEmpty ∧ b.isEmpty then Option.none
    else
      let ia : Option Nat := if a.isEmpty then some 0 else digitsToNat a
      let fb : Option (Nat × Nat) :=
        if b.isEmpty then some (0, 0) else (digitsToNat b).map (fun n => (n, b.length))
      match ia, fb with
      | some n, some (m, k) => some ((n : ℚ) + (m : ℚ) / ((10 : ℚ) ^ k))
      | _, _ => Option.none
  | _ => Option.none

/-- Python `float(s)` on a string (decimal notation; exponent forms are
outside the inputs under study). -/
def pyStrToRat (s : String) : Option ℚ :=
  match trimChars s.data with
  | '-' :: rest => (parseDecimal rest).map (fun q => -q)
  | '+' :: rest => parseDecimal rest
  | t => parseDecimal t

/-- Truncation toward zero, Python's `int(float)`. -/
def ratTrunc (q : ℚ) : Int :=
  q.num.tdiv (q.den : Int)

/-- Python `int(value)`: `none` where the source conversion raises
`ValueError`/`TypeError`. -/
def pyInt : PyVal → Option Int
  | .bool b => some (if b then 1 else 0)
  | .int n => some n
  | .float q => some (ratTrunc q)
  | .str s => pyStrToInt s
  | _ => Option.none

/-- Python `float(value)`: `none` where the source conversion raises. -/
def pyFloat : PyVal → Option ℚ
  | .bool b => some (if b then 1 else 0)
  | .int n => some (n : ℚ)
  | .float q => some q
  | .str s => pyStrToRat s
  | _ => Option.none

/-- `parse_val(value, target_type)` (src/server.py lines 21-39).
`Option.none` is Python `None`, covering both the `value is None`
pass-through and the swallowed conversion failure. -/
def parse_val (value : PyVal) (target_type : PyType) : Option PyVal :=
  match value with
  | .none => Option.none
  | v =>
    match target_type with
    | .str => some (.str (pyStr v))
    | .int => (pyInt v).map PyVal.int
    | .float => (pyFloat v).map PyVal.float
    | .list =>
      match v with
      | .str s => some (.list ((pySplitComma s).map (fun t => PyVal.str (pyStrip t))))
      | .list xs => some (.list xs)
      | w => some (.list [w])
    | .other => some v

/-- Typed view of `parse_val value str` (Python call sites bind the result
to a variable used as a string). -/
def parse_str (v : PyVal) : Option String :=
  match parse_val v .str with
  | some (.str s) => some s
  | _ => Option.none

/-- Typed view of `parse_val value int`. -/
def parse_int (v : PyVal) : Option Int :=
  match parse_val v .int with
  | some (.int n) => some n
  | _ => Option.none

/-- Typed view of `parse_val value float`. -/
def parse_float (v : PyVal) : Option ℚ :=
  match parse_val v .float with
  | some (.float q) => some q
  | _ => Option.none

/-- Python truthiness of an optional string (`if s:`): `None` and `""` are
falsy.  Returns the string when truthy. -/
def truthy : Option String → Option String
  | some s => if s.data.isEmpty then Option.none else some s
  | Option.none => Option.none

/-- Python `x or d` for an optional integer (`None` and `0` are falsy). -/
def orInt (v : Option Int) (d : Int) : Int :=
  match v with
  | some n => if n = 0 then d else n
  | Option.none => d

/-- Python `x or d` for an optional float (`None` and `0.0` are falsy). -/
def orFloat (v : Option ℚ) (d : ℚ) : ℚ :=
  match v with
  | some q => if q = 0 then d else q
  | Option.none => d

/-- Re-embed an optional string into a Python value (for echoing coerced
parameters in a response). -/
def optStrVal : Option String → PyVal
  | some s => .str s
  | Option.none => .none

/-- The `{"geopoint": {"$near": ...}}` clause built by `build_geo_query`:
a point (longitude first) with a max distance in meters. -/
structure GeoNear where
  lon : ℚ
  lat : ℚ
  maxDistance : ℚ
deriving DecidableEq

/-- `build_geo_query(lat, lon, radius_km)` (src/server.py lines 41-53). -/
def build_geo_query (lat lon : ℚ) (radius_km : ℚ) : GeoNear :=
  { lon := lon, lat := lat, maxDistance := radius_km * 1000 }

/-- The `{"updated_at": {"$gte": ..., "$lte": ...}}` clause; instants are
epoch seconds (UTC). -/
structure TimeRange where
  gte : Int
  lte : Int
deriving DecidableEq

/-- `build_time_query(hours_back)` (src/server.py lines 55-67).  The
source samples `datetime.now(timezone.utc)` exactly once and derives the
lower bound from that sample; `now` is that single sample. -/
def build_time_query (hours_back : Int) (now : Int) : TimeRange :=
  { gte := now - hours_back * 3600, lte := now }

/-- One entry of the `location_filters` list (src/server.py lines 114-125):
the three dictionary shapes the code appends. -/
inductive LocationFilter where
  | zipcodes (zs : List String)
  | city_pid (p : String)
  | geopoint (g : GeoNear)
deriving DecidableEq

/-- The query dictionary.  Each optional field is one of the keys the
source can set: `updated_at`, `zipcodes` (`$elemMatch`/`$in`), `city_pid`,
`geopoint` (`$near`), `$or` (`orClause`), `category` (case-insensitive
regex pattern), `risk`, `address_type`. -/
structure MongoQuery where
  updated_at : Option TimeRange := Option.none
  zipcodes : Option (List String) := Option.none
  city_pid : Option String := Option.none
  geopoint : Option GeoNear := Option.none
  orClause : Option (List LocationFilter) := Option.none
  category : Option String := Option.none
  risk : Option String := Option.none
  address_type : Option String := Option.none
deriving DecidableEq

/-- `query.update(location_filters[0])`: merge a single location filter's
key into the top-level query. -/
def updateWith (q : MongoQuery) : LocationFilter → MongoQuery
  | .zipcodes zs => { q with zipcodes := some zs }
  | .city_pid p => { q with city_pid := some p }
  | .geopoint g => { q with geopoint := some g }

/-- Lines 128-132: nothing for an empty list, direct merge for a
singleton, `$or` for two or more. -/
def applyLocation (q : MongoQuery) (lf : List LocationFilter) : MongoQuery :=
  match lf with
  | [] => q
  | [f] => updateWith q f
  | _ => { q with orClause := some lf }

/-- Lines 135-136: `if category_val: query["category"] = {"$regex": ...}`. -/
def applyCategory (q : MongoQuery) (c : Option String) : MongoQuery :=
  match truthy c with
  | some cat => { q with category := some cat }
  | Option.none => q

/-- Lines 139-140: `if risk_val and risk_val.lower() in [...]`. -/
def applyRisk (q : MongoQuery) (r : Option String) : MongoQuery :=
  match truthy r with
  | some rv =>
    if pyLower rv ∈ (["low", "medium", "high"] : List String) then
      { q with risk := some (pyLower rv) }
    else q
  | Option.none => q

/-- The raw keyword arguments of `search_crime_events`, still untyped.
This same shape is the `query_params` dictionary echoed on failure. -/
structure SearchParams where
  zipcode : PyVal
  city_pid : PyVal
  latitude : PyVal
  longitude : PyVal
  radius_km : PyVal
  hours_back : PyVal
  limit : PyVal
  category : PyVal
  risk_level : PyVal

/-- The `*_val` locals of `search_crime_events` (lines 97-105). -/
structure CoercedSearch where
  zipcode_val : Option String
  city_pid_val : Option String
  latitude_val : Option ℚ
  longitude_val : Option ℚ
  radius_val : ℚ
  hours_val : Int
  limit_val : Int
  category_val : Option String
  risk_val : Option String

/-- Lines 97-105, including the truthiness defaults and the
`min(..., 100)` cap. -/
def coerceSearch (p : SearchParams) : CoercedSearch :=
  { zipcode_val := parse_str p.zipcode
  , city_pid_val := parse_str p.city_pid
  , latitude_val := parse_float p.latitude
  , longitude_val := parse_float p.longitude
  , radius_val := orFloat (parse_float p.radius_km) 5
  , hours_val := orInt (parse_int p.hours_back) 24
  , limit_val := min (orInt (parse_int p.limit) 10) 100
  , category_val := parse_str p.category
  , risk_val := parse_str p.risk_level }

/-- The `location_filters` list (lines 114-125), in source order:
zipcode set-intersection, then city_pid exact match, then geo-radius when
both coordinates are present. -/
def location_filters (c : CoercedSearch) : List LocationFilter :=
  (match truthy c.zipcode_val with
   | some z => [LocationFilter.zipcodes ((pySplitComma z).map pyStrip)]
   | Option.none => []) ++
  (match truthy c.city_pid_val with
   | some p => [LocationFilter.city_pid p]
   | Option.none => []) ++
  (match c.latitude_val, c.longitude_val with
   | some la, some lo => [LocationFilter.geopoint (build_geo_query la lo c.radius_val)]
   | _, _ => [])

/-- Lines 108-141: time window, location filters, category, risk, and the
unconditional `query["address_type"] = "POI"`. -/
def buildSearchQuery (c : CoercedSearch) (now : Int) : MongoQuery :=
  let q1 : MongoQuery := { updated_at := some (build_time_query c.hours_val now) }
  let q2 := applyLocation q1 (location_filters c)
  let q3 := applyCategory q2 c.category_val
  let q4 := applyRisk q3 c.risk_val
  { q4 with address_type := some "POI" }

/-- A stored crime-event document, with the fields the two tools read.
`updated_at` is epoch seconds; the model keeps every field present (the
queries under study only match documents carrying them). -/
structure CrimeEvent where
  category : String
  risk : String
  zipcodes : List String
  city_pid : String
  lon : ℚ
  lat : ℚ
  address_type : String
  updated_at : Int
  audio_duration : ℚ
deriving DecidableEq

/-- Gregorian date from a day count since 1970-01-01 (days-to-civil
conversion used to render `datetime.isoformat`). -/
def civilFromDays (z0 : Int) : Int × Nat × Nat :=
  let z := z0 + 719468
  let era : Int := (if 0 ≤ z then z else z - 146096).ediv 146097
  let doe : Int := z - era * 146097
  let yoe : Int := (doe - doe.ediv 1460 + doe.ediv 36524 - doe.ediv 146096).ediv 365
  let y : Int := yoe + era * 400
  let doy : Int := doe - (365 * yoe + yoe.ediv 4 - yoe.ediv 100)
  let mp : Int := (5 * doy + 2).ediv 153
  let d : Int := doy - (153 * mp + 2).ediv 5 + 1
  let m : Int := mp + (if mp < 10 then 3 else -9)
  (y + (if m ≤ 2 then 1 else 0), m.toNat, d.toNat)

/-- Two-digit zero padding. -/
def pad2 (n : Nat) : String :=
  if n < 10 then "0" ++ natToString n else natToString n

/-- Four-digit zero padding for the year. -/
def pad4 (n : Nat) : String :=
  if n < 10 then "000" ++ natToString n
  else if n < 100 then "00" ++ natToString n
  else if n < 1000 then "0" ++ natToString n
  else natToString n

/-- `datetime.isoformat()` of a UTC-aware instant at epoch second `t`:
`YYYY-MM-DDThh:mm:ss+00:00`. -/
def isoformat (t : Int) : String :=
  let days := t.ediv 86400
  let secs := (t.emod 86400).toNat
  let c := civilFromDays days
  pad4 c.1.toNat ++ "-" ++ pad2 c.2.1 ++ "-" ++ pad2 c.2.2 ++ "T" ++
    pad2 (secs / 3600) ++ ":" ++ pad2 (secs % 3600 / 60) ++ ":" ++ pad2 (secs % 60) ++ "+00:00"

/-- `serialize_document` output (lines 69-79): datetimes become ISO-8601
strings, every other field of the modelled documents is a primitive or a
list and passes through unchanged. -/
structure SerializedEvent where
  category : String
  risk : String
  zipcodes : List String
  city_pid : String
  lon : ℚ
  lat : ℚ
  address_type : String
  updated_at : String
  audio_duration : ℚ
deriving DecidableEq

/-- `serialize_document(doc)` (src/server.py lines 69-79). -/
def serialize_document (d : CrimeEvent) : SerializedEvent :=
  { category := d.category
  , risk := d.risk
  , zipcodes := d.zipcodes
  , city_pid := d.city_pid
  , lon := d.lon
  , lat := d.lat
  , address_type := d.address_type
  , updated_at := isoformat d.updated_at
  , audio_duration := d.audio_duration }

/-- A raised Python exception: `msg` is `str(e)`, and `tb_text` the full
text produced by `traceback.format_exc()` (which embeds the stack trace). -/
structure PyExc where
  msg : String
  tb_text : String
deriving DecidableEq

/-- The dictionary returned by `search_crime_events`. `query` and `error`
are present on exactly one of the two paths; `query_params` holds the
coerced values on success and the raw arguments on failure. -/
structure SearchResponse where
  success : Bool
  error : Option String := Option.none
  query : Option MongoQuery := Option.none
  query_params : SearchParams
  results_count : Nat
  results : List SerializedEvent

/-- The coerced `query_params` dictionary of the success path
(lines 154-164), re-embedded as Python values. -/
def coercedEcho (c : CoercedSearch) : SearchParams :=
  { zipcode := optStrVal c.zipcode_val
  , city_pid := optStrVal c.city_pid_val
  , latitude := match c.latitude_val with | some q => .float q | Option.none => .none
  , longitude := match c.longitude_val with | some q => .float q | Option.none => .none
  , radius_km := .float c.radius_val
  , hours_back := .int c.hours_val
  , limit := .int c.limit_val
  , category := optStrVal c.category_val
  , risk_level := optStrVal c.risk_val }

/-- `search_crime_events` (src/server.py lines 82-186).  `now` is the
single clock sample, `store` the outcome of the `collection.find`
execution: `.ok docs` is the (already sorted and limited) result list,
`.error e` any exception raised while reaching or querying the store —
the only exceptions left after coercion failures are swallowed. -/
def search_crime_events (p : SearchParams) (now : Int)
    (store : Except PyExc (List CrimeEvent)) : SearchResponse :=
  match store with
  | .error e =>
    { success := false
    , error := some ("Search failed: " ++ e.tb_text)
    , query_params := p
    , results_count := 0
    , results := [] }
  | .ok docs =>
    let c := coerceSearch p
    let query := buildSearchQuery c now
    let results := docs.map serialize_document
    { success := true
    , query := some query
    , query_params := coercedEcho c
    , results_count := results.length
    , results := results }

/-- The raw keyword arguments of `get_crime_stats`. -/
structure StatsParams where
  zipcode : PyVal
  city_pid : PyVal
  hours_back : PyVal

/-- Lines 202-212: time window, then `if zipcode_val: ... elif
city_pid_val: ...`, then the unconditional `address_type` constraint. -/
def buildStatsQuery (zv cv : Option String) (h now : Int) : MongoQuery :=
  let q1 : MongoQuery := { updated_at := some (build_time_query h now) }
  let q2 :=
    match truthy zv with
    | some z => { q1 with zipcodes := some ((pySplitComma z).map pyStrip) }
    | Option.none =>
      match truthy cv with
      | some c => { q1 with city_pid := some c }
      | Option.none => q1
  { q2 with address_type := some "POI" }

/-- The `$match` query of the statistics pipeline for given raw
parameters. -/
def statsQueryOf (p : StatsParams) (now : Int) : MongoQuery :=
  buildStatsQuery (parse_str p.zipcode) (parse_str p.city_pid)
    (orInt (parse_int p.hours_back) 24) now

/-- Whether a document satisfies the `$match` stage.  A statistics query
only ever carries the four clause kinds below (`buildStatsQuery` never
sets `geopoint`, `orClause`, `category` or `risk`), so the aggregation
semantics needs only these:
time range, `zipcodes` `$elemMatch`/`$in` overlap, `city_pid` equality
and `address_type` equality. -/
def aggMatch (q : MongoQuery) (d : CrimeEvent) : Bool :=
  (match q.updated_at with
   | some tr => decide (tr.gte ≤ d.updated_at) && decide (d.updated_at ≤ tr.lte)
   | Option.none => true) &&
  (match q.zipcodes with
   | some zs => d.zipcodes.any (fun z => zs.contains z)
   | Option.none => true) &&
  (match q.city_pid with
   | some c => d.city_pid == c
   | Option.none => true) &&
  (match q.address_type with
   | some a => d.address_type == a
   | Option.none => true)

/-- The documents the `$match` stage keeps for given raw parameters. -/
def statsMatchedDocs (p : StatsParams) (now : Int) (docs : List CrimeEvent) : List CrimeEvent :=
  docs.filter (fun d => aggMatch (statsQueryOf p now) d)

/-- `$max` over a list of instants (`none` on an empty group input). -/
def listMax : List Int → Option Int
  | [] => Option.none
  | x :: xs => some (xs.foldl max x)

/-- `$min` over a list of instants. -/
def listMin : List Int → Option Int
  | [] => Option.none
  | x :: xs => some (xs.foldl min x)

/-- The single `$group` document of the statistics pipeline
(lines 217-230): count, distinct categories (`$addToSet`), raw risk list
(`$push`), average audio duration (`$avg`), newest and oldest
`updated_at`. -/
structure StatsGroup where
  total_events : Nat
  categories : List String
  risk_levels : List String
  avg_audio_duration : ℚ
  latest_event : Option Int
  earliest_event : Option Int
deriving DecidableEq

/-- `collection.aggregate(pipeline)`: with `_id: None`, the `$group`
stage emits no document when the `$match` stage keeps nothing, and
exactly one document otherwise. -/
def aggregate (q : MongoQuery) (docs : List CrimeEvent) : List StatsGroup :=
  let matched := docs.filter (fun d => aggMatch q d)
  match matched with
  | [] => []
  | _ :: _ =>
    [ { total_events := matched.length
      , categories := (matched.map CrimeEvent.category).dedup
      , risk_levels := matched.map CrimeEvent.risk
      , avg_audio_duration := (matched.map CrimeEvent.audio_duration).sum / (matched.length : ℚ)
      , latest_event := listMax (matched.map CrimeEvent.updated_at)
      , earliest_event := listMin (matched.map CrimeEvent.updated_at) } ]

/-- One step of the dictionary loop (lines 247-249):
`risk_distribution[risk] = risk_distribution.get(risk, 0) + 1`, on an
insertion-ordered association list. -/
def bump : List (String × Nat) → String → List (String × Nat)
  | [], k => [(k, 1)]
  | (k', n) :: rest, k =>
    if k' = k then (k', n + 1) :: rest else (k', n) :: bump rest k

/-- The whole risk-distribution loop over the raw risk list. -/
def tally (l : List String) : List (String × Nat) :=
  l.foldl bump []

/-- `dict.get(k, 0)` on the association-list model. -/
def lookupCount : List (String × Nat) → String → Nat
  | [], _ => 0
  | (k', n) :: rest, k => if k' = k then n else lookupCount rest k

/-- Floor on rationals through integer division (the denominator is
positive). -/
def ratFloor (q : ℚ) : Int :=
  q.num.ediv (q.den : Int)

/-- Round to the nearest integer, ties to even (Python `round`). -/
def roundHalfEven (q : ℚ) : Int :=
  let f := ratFloor q
  let r := q - (f : ℚ)
  if r < 1 / 2 then f
  else if 1 / 2 < r then f + 1
  else if f % 2 = 0 then f else f + 1

/-- Python `round(x, 2)` on the exact-rational model of floats. -/
def round2 (q : ℚ) : ℚ :=
  (roundHalfEven (q * 100) : ℚ) / 100

/-- The `statistics` sub-dictionary of a successful non-empty
`get_crime_stats` response. -/
structure StatsStatistics where
  categories : List String
  risk_distribution : List (String × Nat)
  avg_audio_duration : ℚ
  latest_event : Option String
  earliest_event : Option String
deriving DecidableEq

/-- The dictionary returned by `get_crime_stats`.  `statistics = none`
models the empty `{}`; the `location` values and `time_period_hours` are
the coerced values on success and the raw arguments on failure. -/
structure StatsResponse where
  success : Bool
  error : Option String := Option.none
  location_zipcode : PyVal
  location_city_pid : PyVal
  time_period_hours : PyVal
  total_events : Nat
  statistics : Option StatsStatistics

/-- `get_crime_stats` (src/server.py lines 188-273).  `store` is the
outcome of reaching the collection and running the aggregation. -/
def get_crime_stats (p : StatsParams) (now : Int)
    (store : Except PyExc (List CrimeEvent)) : StatsResponse :=
  match store with
  | .error e =>
    { success := false
    , error := some ("Statistics query failed: " ++ e.msg)
    , location_zipcode := p.zipcode
    , location_city_pid := p.city_pid
    , time_period_hours := p.hours_back
    , total_events := 0
    , statistics := Option.none }
  | .ok docs =>
    let zv := parse_str p.zipcode
    let cv := parse_str p.city_pid
    let hv := orInt (parse_int p.hours_back) 24
    let stats_result := aggregate (statsQueryOf p now) docs
    match stats_result with
    | [] =>
      { success := true
      , location_zipcode := optStrVal zv
      , location_city_pid := optStrVal cv
      , time_period_hours := .int hv
      , total_events := 0
      , statistics := Option.none }
    | stats :: _ =>
      { success := true
      , location_zipcode := optStrVal zv
      , location_city_pid := optStrVal cv
      , time_period_hours := .int hv
      , total_events := stats.total_events
      , statistics := some
          { categories := stats.categories
          , risk_distribution := tally stats.risk_levels
          , avg_audio_duration := round2 stats.avg_audio_duration
          , latest_event := stats.latest_event.map isoformat
          , earliest_event := stats.earliest_event.map isoformat } }

/-- A single location filter "merged directly into the top-level query":
its key carries its value at top level. -/
def mergedTop (q : MongoQuery) : LocationFilter → Prop
  | .zipcodes zs => q.zipcodes = some zs
  | .city_pid p => q.city_pid = some p
  | .geopoint g => q.geopoint = some g

/-! ### Concrete inputs used by witnesses and counterexamples -/

/-- A call to `search_crime_events` with every optional argument left at
its declared default. -/
def pDefaults : SearchParams :=
  { zipcode := .none, city_pid := .none, latitude := .none, longitude := .none
  , radius_km := .float 5, hours_back := .int 24, limit := .int 10
  , category := .none, risk_level := .none }

/-- A call to `get_crime_stats` with every optional argument left at its
declared default. -/
def spDefaults : StatsParams :=
  { zipcode := .none, city_pid := .none, hours_back := .int 24 }

/-- A concrete store exception whose `format_exc` text carries a stack
trace. -/
def leakExc : PyExc :=
  { msg := "ServerSelectionTimeoutError: sandbox.mongos.pub.nb-sandbox.com"
  , tb_text := "Traceback (most recent call last):\n  File \"server.py\", line 145, in search_crime_events\npymongo.errors.ServerSelectionTimeoutError" }

/-- A search call with a two-element comma-separated zipcode list. -/
def pZipOnly : SearchParams :=
  { pDefaults with zipcode := .str "95035, 95036" }

/-- A search call with both a zipcode and a city identifier. -/
def pZipCity : SearchParams :=
  { pDefaults with zipcode := .str "95035", city_pid := .str "milpitas,california" }

/-- A search call with an upper-case risk level. -/
def pRiskHigh : SearchParams :=
  { pDefaults with risk_level := .str "HIGH" }

/-- A search call with an unrecognized risk level. -/
def pRiskCritical : SearchParams :=
  { pDefaults with risk_level := .str "critical" }

/-- A statistics call filtering on one zipcode. -/
def spZip : StatsParams :=
  { zipcode := .str "95035", city_pid := .none, hours_back := .int 24 }

/-- Three stored documents matching `spZip` within a day of instant
86400: risks low, low, high. -/
def statsDocs : List CrimeEvent :=
  [ { category := "Theft", risk := "low", zipcodes := ["95035"]
    , city_pid := "milpitas,california", lon := -121, lat := 37
    , address_type := "POI", updated_at := 3000, audio_duration := 10 }
  , { category := "Theft", risk := "low", zipcodes := ["95035", "95036"]
    , city_pid := "milpitas,california", lon := -121, lat := 37
    , address_type := "POI", updated_at := 1000, audio_duration := 20 }
  , { category := "Family Offense", risk := "high", zipcodes := ["95035"]
    , city_pid := "milpitas,california", lon := -121, lat := 37
    , address_type := "POI", updated_at := 2000, audio_duration := 33 } ]

/-! ### Helper lemmas about the query-construction steps -/

@[simp] theorem updateWith_updated_at (q : MongoQuery) (f : LocationFilter) :
    (updateWith q f).updated_at = q.updated_at := by
  cases f <;> rfl

@[simp] theorem updateWith_orClause (q : MongoQuery) (f : LocationFilter) :
    (updateWith q f).orClause = q.orClause := by
  cases f <;> rfl

@[simp] theorem updateWith_risk (q : MongoQuery) (f : LocationFilter) :
    (updateWith q f).risk = q.risk := by
  cases f <;> rfl

@[simp] theorem applyLocation_updated_at (q : MongoQuery) (lf : List LocationFilter) :
    (applyLocation q lf).updated_at = q.updated_at := by
  cases lf with
  | nil => rfl
  | cons f t =>
    cases t with
    | nil => cases f <;> rfl
    | cons f2 t2 => rfl

@[simp] theorem applyLocation_risk (q : MongoQuery) (lf : List LocationFilter) :
    (applyLocation q lf).risk = q.risk := by
  cases lf with
  | nil => rfl
  | cons f t =>
    cases t with
    | nil => cases f <;> rfl
    | cons f2 t2 => rfl

@[simp] theorem applyCategory_updated_at (q : MongoQuery) (c : Option String) :
    (applyCategory q c).updated_at = q.updated_at := by
  unfold applyCategory; cases truthy c <;> rfl

@[simp] theorem applyCategory_zipcodes (q : MongoQuery) (c : Option String) :
    (applyCategory q c).zipcodes = q.zipcodes := by
  unfold applyCategory; cases truthy c <;> rfl

@[simp] theorem applyCategory_city_pid (q : MongoQuery) (c : Option String) :
    (applyCategory q c).city_pid = q.city_pid := by
  unfold applyCategory; cases truthy c <;> rfl

@[simp] theorem applyCategory_geopoint (q : MongoQuery) (c : Option String) :
    (applyCategory q c).geopoint = q.geopoint := by
  unfold applyCategory; cases truthy c <;> rfl

@[simp] theorem applyCategory_orClause (q : MongoQuery) (c : Option String) :
    (applyCategory q c).orClause = q.orClause := by
  unfold applyCategory; cases truthy c <;> rfl

@[simp] theorem applyCategory_risk (q : MongoQuery) (c : Option String) :
    (applyCategory q c).risk = q.risk := by
  unfold applyCategory; cases truthy c <;> rfl

@[simp] theorem applyRisk_updated_at (q : MongoQuery) (r : Option String) :
    (applyRisk q r).updated_at = q.updated_at := by
  unfold applyRisk
  cases truthy r with
  | none => rfl
  | some rv =>
    by_cases h : pyLower rv ∈ (["low", "medium", "high"] : List String) <;> simp [h]

@[simp] theorem applyRisk_zipcodes (q : MongoQuery) (r : Option String) :
    (applyRisk q r).zipcodes = q.zipcodes := by
  unfold applyRisk
  cases truthy r with
  | none => rfl
  | some rv =>
    by_cases h : pyLower rv ∈ (["low", "medium", "high"] : List String) <;> simp [h]

@[simp] theorem applyRisk_city_pid (q : MongoQuery) (r : Option String) :
    (applyRisk q r).city_pid = q.city_pid := by
  unfold applyRisk
  cases truthy r with
  | none => rfl
  | some rv =>
    by_cases h : pyLower rv ∈ (["low", "medium", "high"] : List String) <;> simp [h]

@[simp] theorem applyRisk_geopoint (q : MongoQuery) (r : Option String) :
    (applyRisk q r).geopoint = q.geopoint := by
  unfold applyRisk
  cases truthy r with
  | none => rfl
  | some rv =>
    by_cases h : pyLower rv ∈ (["low", "medium", "high"] : List String) <;> simp [h]

@[simp] theorem applyRisk_orClause (q : MongoQuery) (r : Option String) :
    (applyRisk q r).orClause = q.orClause := by
  unfold applyRisk
  cases truthy r with
  | none => rfl
  | some rv =>
    by_cases h : pyLower rv ∈ (["low", "medium", "high"] : List String) <;> simp [h]

theorem applyRisk_risk (q : MongoQuery) (r : Option String) :
    (applyRisk q r).risk =
      match truthy r with
      | some rv =>
        if pyLower rv ∈ (["low", "medium", "high"] : List String) then some (pyLower rv)
        else q.risk
      | Option.none => q.risk := by
  unfold applyRisk
  cases truthy r with
  | none => rfl
  | some rv =>
    by_cases h : pyLower rv ∈ (["low", "medium", "high"] : List String) <;> simp [h]

theorem buildSearchQuery_eq (c : CoercedSearch) (now : Int) :
    buildSearchQuery c now =
      { applyRisk (applyCategory (applyLocation
            { updated_at := some (build_time_query c.hours_val now) }
            (location_filters c)) c.category_val) c.risk_val
        with address_type := some "POI" } := rfl

theorem buildStatsQuery_updated_at (zv cv : Option String) (h now : Int) :
    (buildStatsQuery zv cv h now).updated_at = some (build_time_query h now) := by
  unfold buildStatsQuery
  cases truthy zv with
  | none => cases truthy cv <;> rfl
  | some z => rfl

theorem buildSearchQuery_risk (c : CoercedSearch) (now : Int) :
    (buildSearchQuery c now).risk =
      match truthy c.risk_val with
      | some rv =>
        if pyLower rv ∈ (["low", "medium", "high"] : List String) then some (pyLower rv)
        else Option.none
      | Option.none => Option.none := by
  rw [buildSearchQuery_eq]
  show (applyRisk _ c.risk_val).risk = _
  rw [applyRisk_risk]
  cases truthy c.risk_val with
  | none => simp
  | some rv =>
    by_cases h : pyLower rv ∈ (["low", "medium", "high"] : List String) <;> simp [h]

theorem lookupCount_bump (d : List (String × Nat)) (a r : String) :
    lookupCount (bump d a) r = lookupCount d r + (if a = r then 1 else 0) := by
  induction d with
  | nil =>
    by_cases h : a = r <;> simp [bump, lookupCount, h]
  | cons kv rest ih =>
    obtain ⟨k', n⟩ := kv
    by_cases h1 : k' = a
    · subst h1
      simp only [bump, if_pos rfl]
      by_cases h2 : k' = r <;> simp [lookupCount, h2]
    · simp only [bump, if_neg h1]
      by_cases h2 : k' = r
      · have har : a ≠ r := fun hc => h1 (h2.trans hc.symm)
        simp [lookupCount, h2, har]
      · simp [lookupCount, h2, ih]

theorem lookupCount_foldl (l : List String) (d : List (String × Nat)) (r : String) :
    lookupCount (l.foldl bump d) r = lookupCount d r + l.count r := by
  induction l generalizing d with
  | nil => simp
  | cons a t ih =>
    show lookupCount (t.foldl bump (bump d a)) r = _
    rw [ih (bump d a), lookupCount_bump, List.count_cons]
    by_cases h : a = r
    · simp [h]
      omega
    · have h' : ¬ (r = a) := fun hc => h hc.symm
      simp [h, h']

/-- The dictionary loop reproduces the frequency of every risk value in
the raw (non-deduplicated) list. -/
theorem lookupCount_tally (l : List String) (r : String) :
    lookupCount (tally l) r = l.count r := by
  show lookupCount (l.foldl bump []) r = l.count r
  rw [lookupCount_foldl]
  simp [lookupCount]

/-! ### The claims -/

/-- Claim C2: the time-window clause built with `hours_back = h` has its
upper bound equal to the single instant sampled at construction, its
lower bound that instant minus `h` hours, and hence a span of exactly
`h` hours; the clock sample `now` occurs once, so both bounds are
anchored to the same instant. -/
theorem C2_time_window_exact_span (h now : Int) :
    (build_time_query h now).lte = now
  ∧ (build_time_query h now).gte = now - h * 3600
  ∧ (build_time_query h now).lte - (build_time_query h now).gte = h * 3600 := by
  refine ⟨rfl, rfl, ?_⟩
  show now - (now - h * 3600) = h * 3600
  omega

/-- Claim C4: for every input to either operation, the constructed query
carries the time-window clause on `updated_at` and constrains
`address_type` to the fixed value "POI". -/
theorem C4_time_window_and_poi_invariant (p : SearchParams) (sp : StatsParams) (now : Int) :
    ((buildSearchQuery (coerceSearch p) now).updated_at
        = some (build_time_query (coerceSearch p).hours_val now)
      ∧ (buildSearchQuery (coerceSearch p) now).address_type = some "POI")
  ∧ ((statsQueryOf sp now).updated_at
        = some (build_time_query (orInt (parse_int sp.hours_back) 24) now)
      ∧ (statsQueryOf sp now).address_type = some "POI") := by
  refine ⟨⟨?_, rfl⟩, ⟨?_, rfl⟩⟩
  · rw [buildSearchQuery_eq]; simp
  · exact buildStatsQuery_updated_at _ _ _ _

/-- Claim C7 (amended): whenever the store raises during
`search_crime_events`, the response has `success = false`, its error
message is the string "Search failed: " followed by the full
`format_exc` traceback (the stack trace is included, not hidden), it
echoes the original uncoerced parameters, and it has a zero count with
an empty result list. -/
theorem C7_failure_response (p : SearchParams) (now : Int) (e : PyExc) :
    (search_crime_events p now (.error e)).success = false
  ∧ (search_crime_events p now (.error e)).error = some ("Search failed: " ++ e.tb_text)
  ∧ (search_crime_events p now (.error e)).query_params = p
  ∧ (search_crime_events p now (.error e)).results_count = 0
  ∧ (search_crime_events p now (.error e)).results = [] :=
  ⟨rfl, rfl, rfl, rfl, rfl⟩

/-- Claim C7 counterexample: at a concrete store exception the failure
response's error message contains the full traceback text as a
substring, so it does not avoid leaking internal stack traces. -/
theorem C7_traceback_leak_counterexample :
    (search_crime_events pDefaults 0 (.error leakExc)).success = false
  ∧ ∃ pre post, (search_crime_events pDefaults 0 (.error leakExc)).error
      = some (pre ++ leakExc.tb_text ++ post) :=
  ⟨rfl, "Search failed: ", "", rfl⟩

/-- Claim C10: a coerced falsy numeric parameter — `hours_back = 0`,
`limit = 0` or `radius_km = 0` — is replaced by the default (24 hours,
limit 10, radius 5.0 km) through the truthiness `or`, and a successful
call with such a zero is indistinguishable from the same call with the
parameter absent. -/
theorem C10_falsy_zero_uses_default (p : SearchParams) (sp : StatsParams) (now : Int)
    (docs : List CrimeEvent) :
    (coerceSearch { p with hours_back := .int 0 }).hours_val = 24
  ∧ (coerceSearch { p with limit := .int 0 }).limit_val = 10
  ∧ (coerceSearch { p with radius_km := .float 0 }).radius_val = 5
  ∧ search_crime_events { p with hours_back := .int 0 } now (.ok docs)
      = search_crime_events { p with hours_back := .none } now (.ok docs)
  ∧ search_crime_events { p with limit := .int 0 } now (.ok docs)
      = search_crime_events { p with limit := .none } now (.ok docs)
  ∧ search_crime_events { p with radius_km := .float 0 } now (.ok docs)
      = search_crime_events { p with radius_km := .none } now (.ok docs)
  ∧ get_crime_stats { sp with hours_back := .int 0 } now (.ok docs)
      = get_crime_stats { sp with hours_back := .none } now (.ok docs) :=
  ⟨rfl, rfl, rfl, rfl, rfl, rfl, rfl⟩

/-- Claim C1 (amended): the effective limit is
`min(coerced_limit or 10, 100)`: it never exceeds 100, `limit = None`
yields 10, a coerced limit of 100 or more yields 100, and a positive
coerced limit keeps the effective limit at least 1 — but a negative
coerced limit passes through below 1. -/
theorem C1_limit_cap (p : SearchParams) :
    (coerceSearch p).limit_val = min (orInt (parse_int p.limit) 10) 100
  ∧ (coerceSearch p).limit_val ≤ 100
  ∧ (p.limit = PyVal.none → (coerceSearch p).limit_val = 10)
  ∧ (∀ n : Int, parse_int p.limit = some n → 100 ≤ n → (coerceSearch p).limit_val = 100)
  ∧ (∀ n : Int, parse_int p.limit = some n → 1 ≤ n → 1 ≤ (coerceSearch p).limit_val) := by
  refine ⟨rfl, min_le_right _ _, ?_, ?_, ?_⟩
  · intro h
    show min (orInt (parse_int p.limit) 10) 100 = 10
    rw [h]; rfl
  · intro n hn h100
    show min (orInt (parse_int p.limit) 10) 100 = 100
    rw [hn]
    unfold orInt
    have hne : ¬ (n = 0) := by omega
    simp only [hne, if_false]
    omega
  · intro n hn h1
    show 1 ≤ min (orInt (parse_int p.limit) 10) 100
    rw [hn]
    unfold orInt
    have hne : ¬ (n = 0) := by omega
    simp only [hne, if_false]
    omega

/-- Claim C1 witness: `limit = 500` caps at 100 and `limit = None`
defaults to 10. -/
theorem C1_limit_cap_witness :
    (coerceSearch { pDefaults with limit := .int 500 }).limit_val = 100
  ∧ (coerceSearch { pDefaults with limit := .none }).limit_val = 10 := by
  constructor
  · exact (C1_limit_cap { pDefaults with limit := .int 500 }).2.2.2.1 500 rfl (by omega)
  · exact (C1_limit_cap { pDefaults with limit := .none }).2.2.1 rfl

/-- Claim C1 counterexample: `limit = -5` gives effective limit `-5`,
which is outside `[1, 100]`. -/
theorem C1_limit_range_counterexample :
    (coerceSearch { pDefaults with limit := .int (-5) }).limit_val = -5
  ∧ ¬ (1 ≤ (coerceSearch { pDefaults with limit := .int (-5) }).limit_val
        ∧ (coerceSearch { pDefaults with limit := .int (-5) }).limit_val ≤ 100) := by
  constructor
  · rfl
  · decide

/-- Claim C3: the location predicates combine as described — with no
predicate the query carries no location constraint; with exactly one,
that predicate's key is merged directly into the top-level query with no
OR wrapper; with two or more, they are grouped under a `$or` clause and
the top-level location keys stay empty. -/
theorem C3_location_predicate_combination (p : SearchParams) (now : Int) :
    (location_filters (coerceSearch p) = [] →
        (buildSearchQuery (coerceSearch p) now).zipcodes = Option.none
      ∧ (buildSearchQuery (coerceSearch p) now).city_pid = Option.none
      ∧ (buildSearchQuery (coerceSearch p) now).geopoint = Option.none
      ∧ (buildSearchQuery (coerceSearch p) now).orClause = Option.none)
  ∧ (∀ f, location_filters (coerceSearch p) = [f] →
        mergedTop (buildSearchQuery (coerceSearch p) now) f
      ∧ (buildSearchQuery (coerceSearch p) now).orClause = Option.none)
  ∧ (∀ f1 f2 rest, location_filters (coerceSearch p) = f1 :: f2 :: rest →
        (buildSearchQuery (coerceSearch p) now).orClause = some (f1 :: f2 :: rest)
      ∧ (buildSearchQuery (coerceSearch p) now).zipcodes = Option.none
      ∧ (buildSearchQuery (coerceSearch p) now).city_pid = Option.none
      ∧ (buildSearchQuery (coerceSearch p) now).geopoint = Option.none) := by
  refine ⟨?_, ?_, ?_⟩
  · intro h
    rw [buildSearchQuery_eq, h]
    simp [applyLocation]
  · intro f h
    rw [buildSearchQuery_eq, h]
    cases f <;> simp [applyLocation, updateWith, mergedTop]
  · intro f1 f2 rest h
    rw [buildSearchQuery_eq, h]
    simp [applyLocation]

/-- Claim C3 witness: no location argument leaves the query without
location keys; a single zipcode argument is merged at top level with no
OR; zipcode together with city_pid lands in a two-element `$or` group. -/
theorem C3_location_combination_witness :
    ((buildSearchQuery (coerceSearch pDefaults) 0).zipcodes = Option.none
      ∧ (buildSearchQuery (coerceSearch pDefaults) 0).orClause = Option.none)
  ∧ (mergedTop (buildSearchQuery (coerceSearch pZipOnly) 0)
        (.zipcodes ["95035", "95036"])
      ∧ (buildSearchQuery (coerceSearch pZipOnly) 0).orClause = Option.none)
  ∧ (buildSearchQuery (coerceSearch pZipCity) 0).orClause
      = some [.zipcodes ["95035"], .city_pid "milpitas,california"] := by
  refine ⟨?_, ?_, ?_⟩
  · have h := (C3_location_predicate_combination pDefaults 0).1 (by decide)
    exact ⟨h.1, h.2.2.2⟩
  · exact (C3_location_predicate_combination pZipOnly 0).2.1 _ (by decide)
  · exact ((C3_location_predicate_combination pZipCity 0).2.2 _ _ _ (by decide)).1

/-- Claim C5: a supplied risk_level whose lower-cased form is one of
"low", "medium", "high" becomes an exact-match filter on the lower-cased
value; any other supplied value leaves the risk filter out, and the call
still succeeds. -/
theorem C5_risk_level_normalization (p : SearchParams) (now : Int) (docs : List CrimeEvent)
    (s : String) (hs : p.risk_level = .str s) :
    (pyLower s ∈ (["low", "medium", "high"] : List String) →
      (buildSearchQuery (coerceSearch p) now).risk = some (pyLower s))
  ∧ (pyLower s ∉ (["low", "medium", "high"] : List String) →
      (buildSearchQuery (coerceSearch p) now).risk = Option.none)
  ∧ (search_crime_events p now (.ok docs)).success = true := by
  have hrisk : (coerceSearch p).risk_val = some s := by
    show parse_str p.risk_level = some s
    rw [hs]
    rfl
  by_cases hd : s.data.isEmpty = true
  · have hdata : s.data = [] := by rwa [List.isEmpty_iff] at hd
    have hlow : pyLower s = "" := by
      show String.mk (s.data.map Char.toLower) = ""
      rw [hdata]
      rfl
    have ht : truthy (some s) = Option.none := by
      show (if s.data.isEmpty = true then Option.none else some s) = Option.none
      rw [hd]
      rfl
    refine ⟨?_, ?_, rfl⟩
    · intro hmem
      rw [hlow] at hmem
      exact absurd hmem (by decide)
    · intro _
      rw [buildSearchQuery_risk, hrisk, ht]
  · rw [Bool.not_eq_true] at hd
    have ht : truthy (some s) = some s := by
      show (if s.data.isEmpty = true then Option.none else some s) = some s
      rw [hd]
      rfl
    refine ⟨?_, ?_, rfl⟩
    · intro hmem
      rw [buildSearchQuery_risk, hrisk, ht]
      simp [hmem]
    · intro hmem
      rw [buildSearchQuery_risk, hrisk, ht]
      simp [hmem]

/-- Claim C5 witness: risk_level "HIGH" normalizes to an exact match on
"high"; risk_level "critical" leaves the risk filter out and the call
still succeeds. -/
theorem C5_risk_level_witness :
    (buildSearchQuery (coerceSearch pRiskHigh) 0).risk = some "high"
  ∧ (buildSearchQuery (coerceSearch pRiskCritical) 0).risk = Option.none
  ∧ (search_crime_events pRiskCritical 0 (.ok [])).success = true := by
  refine ⟨?_, ?_, ?_⟩
  · have h := (C5_risk_level_normalization pRiskHigh 0 [] "HIGH" rfl).1 (by decide)
    rw [h]
    decide
  · exact (C5_risk_level_normalization pRiskCritical 0 [] "critical" rfl).2.1 (by decide)
  · exact (C5_risk_level_normalization pRiskCritical 0 [] "critical" rfl).2.2

/-- Claim C6: `parse_val` returns null for null input; for the integer
and float targets it yields either a parsed number or null (it is total,
never raising); for the list target a string splits on commas with each
element stripped, a list passes through unchanged, and any other value
is wrapped as a one-element list — checked on concrete inputs as well. -/
theorem C6_parse_val_contract :
    (∀ t, parse_val PyVal.none t = Option.none)
  ∧ (∀ v, parse_val v .int = Option.none ∨ ∃ n : Int, parse_val v .int = some (.int n))
  ∧ (∀ v, parse_val v .float = Option.none ∨ ∃ q : ℚ, parse_val v .float = some (.float q))
  ∧ (∀ s, parse_val (.str s) .list
        = some (.list ((pySplitComma s).map (fun t => PyVal.str (pyStrip t)))))
  ∧ (∀ xs, parse_val (.list xs) .list = some (.list xs))
  ∧ (∀ n : Int, parse_val (.int n) .list = some (.list [.int n]))
  ∧ (∀ q : ℚ, parse_val (.float q) .list = some (.list [.float q]))
  ∧ (∀ b, parse_val (.bool b) .list = some (.list [.bool b]))
  ∧ parse_val (.str "95035, 95036") .list = some (.list [.str "95035", .str "95036"])
  ∧ parse_val (.str " 42 ") .int = some (.int 42)
  ∧ parse_val (.str "abc") .int = Option.none
  ∧ parse_val (.str "not-a-number") .float = Option.none := by
  have keyInt : ∀ o : Option Int,
      o.map PyVal.int = Option.none ∨ ∃ n : Int, o.map PyVal.int = some (.int n) := by
    intro o
    cases o with
    | none => exact Or.inl rfl
    | some n => exact Or.inr ⟨n, rfl⟩
  have keyFloat : ∀ o : Option ℚ,
      o.map PyVal.float = Option.none ∨ ∃ q : ℚ, o.map PyVal.float = some (.float q) := by
    intro o
    cases o with
    | none => exact Or.inl rfl
    | some q => exact Or.inr ⟨q, rfl⟩
  refine ⟨fun t => rfl, ?_, ?_, fun s => rfl, fun xs => rfl, fun n => rfl,
    fun q => rfl, fun b => rfl, rfl, rfl, rfl, rfl⟩
  · intro v
    cases v with
    | none => exact Or.inl rfl
    | bool b => exact keyInt (pyInt (.bool b))
    | int n => exact keyInt (pyInt (.int n))
    | float q => exact keyInt (pyInt (.float q))
    | str s => exact keyInt (pyInt (.str s))
    | list xs => exact keyInt (pyInt (.list xs))
  · intro v
    cases v with
    | none => exact Or.inl rfl
    | bool b => exact keyFloat (pyFloat (.bool b))
    | int n => exact keyFloat (pyFloat (.int n))
    | float q => exact keyFloat (pyFloat (.float q))
    | str s => exact keyFloat (pyFloat (.str s))
    | list xs => exact keyFloat (pyFloat (.list xs))

/-- Claim C8: when the aggregation matches zero documents,
`get_crime_stats` returns `success = true` with zero total events and an
empty statistics object — an empty result is not an error. -/
theorem C8_empty_aggregation_success (p : StatsParams) (now : Int) (docs : List CrimeEvent)
    (h : statsMatchedDocs p now docs = []) :
    (get_crime_stats p now (.ok docs)).success = true
  ∧ (get_crime_stats p now (.ok docs)).total_events = 0
  ∧ (get_crime_stats p now (.ok docs)).statistics = Option.none := by
  have h' : docs.filter (fun d => aggMatch (statsQueryOf p now) d) = [] := h
  have hagg : aggregate (statsQueryOf p now) docs = [] := by
    simp only [aggregate, h']
  simp [get_crime_stats, hagg]

/-- Claim C8 witness: a statistics call over an empty store matches
nothing and still succeeds with zero events and empty statistics. -/
theorem C8_empty_aggregation_witness :
    statsMatchedDocs spDefaults 0 [] = []
  ∧ ((get_crime_stats spDefaults 0 (.ok [])).success = true
      ∧ (get_crime_stats spDefaults 0 (.ok [])).total_events = 0
      ∧ (get_crime_stats spDefaults 0 (.ok [])).statistics = Option.none) :=
  ⟨rfl, C8_empty_aggregation_success spDefaults 0 [] rfl⟩

/-- Claim C9: when the aggregation matches at least one document, the
response succeeds, its risk distribution is the frequency tally of the
raw (non-deduplicated) risk-value list, its average audio duration is
the average rounded to 2 decimal places, and the latest/earliest
timestamps are ISO-8601 renderings (null if the aggregation values are
absent, which a non-empty group never produces here). -/
theorem C9_nonempty_aggregation (p : StatsParams) (now : Int) (docs : List CrimeEvent)
    (h : statsMatchedDocs p now docs ≠ []) :
    (get_crime_stats p now (.ok docs)).success = true
  ∧ (get_crime_stats p now (.ok docs)).total_events = (statsMatchedDocs p now docs).length
  ∧ ∃ st, (get_crime_stats p now (.ok docs)).statistics = some st
      ∧ st.risk_distribution = tally ((statsMatchedDocs p now docs).map CrimeEvent.risk)
      ∧ (∀ r, lookupCount st.risk_distribution r
            = ((statsMatchedDocs p now docs).map CrimeEvent.risk).count r)
      ∧ st.avg_audio_duration
          = round2 (((statsMatchedDocs p now docs).map CrimeEvent.audio_duration).sum
              / ((statsMatchedDocs p now docs).length : ℚ))
      ∧ st.latest_event
          = (listMax ((statsMatchedDocs p now docs).map CrimeEvent.updated_at)).map isoformat
      ∧ st.earliest_event
          = (listMin ((statsMatchedDocs p now docs).map CrimeEvent.updated_at)).map isoformat := by
  obtain ⟨d, ds, hm⟩ := List.exists_cons_of_ne_nil h
  have h' : docs.filter (fun x => aggMatch (statsQueryOf p now) x) = d :: ds := hm
  rw [hm]
  refine ⟨?_, ?_,
    ⟨{ categories := ((d :: ds).map CrimeEvent.category).dedup
     , risk_distribution := tally ((d :: ds).map CrimeEvent.risk)
     , avg_audio_duration :=
         round2 (((d :: ds).map CrimeEvent.audio_duration).sum / ((d :: ds).length : ℚ))
     , latest_event := (listMax ((d :: ds).map CrimeEvent.updated_at)).map isoformat
     , earliest_event := (listMin ((d :: ds).map CrimeEvent.updated_at)).map isoformat },
     ?_, rfl, ?_, rfl, rfl, rfl⟩⟩
  · simp [get_crime_stats, aggregate, h']
  · simp [get_crime_stats, aggregate, h']
  · simp [get_crime_stats, aggregate, h']
  · intro r
    exact lookupCount_tally _ r

/-- Claim C9 witness: three matching documents with risks low, low, high
yield the distribution low ↦ 2, high ↦ 1, and the latest timestamp
(epoch second 3000) renders as an ISO-8601 string. -/
theorem C9_nonempty_aggregation_witness :
    statsMatchedDocs spZip 86400 statsDocs ≠ []
  ∧ ∃ st, (get_crime_stats spZip 86400 (.ok statsDocs)).statistics = some st
      ∧ st.risk_distribution = [("low", 2), ("high", 1)]
      ∧ lookupCount st.risk_distribution "low" = 2
      ∧ lookupCount st.risk_distribution "high" = 1
      ∧ st.latest_event = some "1970-01-01T00:50:00+00:00" := by
  have hne : statsMatchedDocs spZip 86400 statsDocs ≠ [] := by decide
  obtain ⟨-, -, st, hst, hdist, hcount, -, hlatest, -⟩ :=
    C9_nonempty_aggregation spZip 86400 statsDocs hne
  refine ⟨hne, st, hst, ?_, ?_, ?_, ?_⟩
  · rw [hdist]
    decide
  · exact (hcount "low").trans (by decide)
  · exact (hcount "high").trans (by decide)
  · rw [hlatest]
    decide

end CrimeRadio
